import Mathlib

/-!
Shallow embedding of the ics2000 Home Assistant integration
(`custom_components/ics2000/cover.py` and
`custom_components/ics2000/switch.py`).

The two platform modules share one pattern: a dispatcher that rejects a
new action when a worker thread for the same device is already running
(detected by scanning live thread names), a background worker that issues
hub commands and reconciles entity state in a `finally` block, and
per-entity state flags.

Modelling choices:
  * the set of live threads is passed explicitly as the list of their
    names (`threading.enumerate()` yields exactly the live threads);
  * a dispatcher call returns the updated entity, the thread it spawned
    (if any) as a record of the constructor arguments, and whether
    `schedule_update_ha_state` was called;
  * a worker run returns the final entity, the trace of hub invocations /
    sleeps it performed, and whether the finalizer requested a refresh;
    an exception raised by a hub invocation is modelled by the
    `hub_raises` / `failAt` parameter: the invocation still happens (and
    is recorded) but the rest of the `try` block is skipped, the
    exception is caught by `except` and the `finally` block runs;
  * sleep durations are rationals, so that `time.sleep(0.5)` is exact.
-/

namespace ICS2000

/-- A hub command: `hub.turn_on` or `hub.turn_off` (both take `entity=id`). -/
inductive HubFn
  | turn_on
  | turn_off
deriving DecidableEq, Repr

/-- A device as enumerated from the hub: `device.id` and `device.name`. -/
structure Device where
  id : Nat
  name : String
deriving DecidableEq, Repr

/-- The hub handle: `hub.connected` and `hub.devices`. -/
structure Hub where
  connected : Bool
  devices : List Device
deriving DecidableEq, Repr

/-- One event performed by a worker: a hub invocation or a `time.sleep`. -/
inductive WorkerEv
  | hub_call (f : HubFn)
  | sleep_for (seconds : ℚ)
deriving DecidableEq, Repr

/-- Predicate picking out hub invocations in a worker trace. -/
def WorkerEv.isCall : WorkerEv → Bool
  | .hub_call _ => true
  | .sleep_for _ => false

/-! ## cover.py -/

/-- `KlikAanKlikUitCoverAction` enum from cover.py. -/
inductive KlikAanKlikUitCoverAction
  | OPEN
  | CLOSE
  | STOP
deriving DecidableEq, Repr

/-- The `.value` of each enum member. -/
def KlikAanKlikUitCoverAction.value : KlikAanKlikUitCoverAction → String
  | .OPEN => "open"
  | .CLOSE => "close"
  | .STOP => "stop"

/-- Thread name `f'cover{action.value}{device_id}'` used by
`KlikAanKlikUitCoverThread.__init__`. -/
def coverThreadName (action : KlikAanKlikUitCoverAction) (device_id : Nat) : String :=
  "cover" ++ action.value ++ toString device_id

/-- `KlikAanKlikUitCoverThread.has_running_threads`: scans the names of all
live threads (`threads`) for the three cover thread names of `device_id`. -/
def KlikAanKlikUitCoverThread.has_running_threads
    (threads : List String) (device_id : Nat) : Bool :=
  let running_threads := threads.filter (fun n =>
    n == coverThreadName .OPEN device_id ||
    n == coverThreadName .CLOSE device_id ||
    n == coverThreadName .STOP device_id)
  !running_threads.isEmpty

/-- Entity state of `KlikAanKlikUitCover`: configuration (`tries`, `sleep`),
identity, and the mutable flags `_is_closed` (tri-state), `_is_opening`,
`_is_closing`. -/
structure KlikAanKlikUitCover where
  tries : Nat
  sleep : Nat
  name : String
  id : Nat
  is_closed : Option Bool
  is_opening : Bool
  is_closing : Bool
deriving DecidableEq, Repr

/-- `KlikAanKlikUitCover.__init__`. -/
def KlikAanKlikUitCover.init (device : Device) (tries sleepT : Nat) :
    KlikAanKlikUitCover :=
  { tries := tries
    sleep := sleepT
    name := device.name
    id := device.id
    is_closed := none
    is_opening := false
    is_closing := false }

/-- The arguments a cover dispatcher passes to `KlikAanKlikUitCoverThread`:
the action (which fixes the thread name), the device id, and the kwargs of
the target `_execute_cover_action`. -/
structure SpawnedCoverThread where
  action : KlikAanKlikUitCoverAction
  device_id : Nat
  kwargs_action : String
  hub_function : Option HubFn
deriving DecidableEq, Repr

/-- Result of a cover dispatcher call (`open_cover` / `close_cover` /
`stop_cover`): the entity after the call, the thread started (if any), and
whether `schedule_update_ha_state` was called. -/
structure CoverDispatchResult where
  entity : KlikAanKlikUitCover
  spawned : Option SpawnedCoverThread
  refreshed : Bool
deriving DecidableEq, Repr

/-- `KlikAanKlikUitCover.open_cover`: rejected if any cover thread for this
device is live; otherwise set optimistic flags, refresh, spawn the OPEN
worker. -/
def KlikAanKlikUitCover.open_cover (c : KlikAanKlikUitCover)
    (threads : List String) : CoverDispatchResult :=
  if KlikAanKlikUitCoverThread.has_running_threads threads c.id then
    { entity := c, spawned := none, refreshed := false }
  else
    { entity := { c with is_opening := true, is_closing := false }
      spawned := some
        { action := .OPEN
          device_id := c.id
          kwargs_action := "open"
          hub_function := none }
      refreshed := true }

/-- `KlikAanKlikUitCover.close_cover`: mirror image of `open_cover`. -/
def KlikAanKlikUitCover.close_cover (c : KlikAanKlikUitCover)
    (threads : List String) : CoverDispatchResult :=
  if KlikAanKlikUitCoverThread.has_running_threads threads c.id then
    { entity := c, spawned := none, refreshed := false }
  else
    { entity := { c with is_closing := true, is_opening := false }
      spawned := some
        { action := .CLOSE
          device_id := c.id
          kwargs_action := "close"
          hub_function := none }
      refreshed := true }

/-- `KlikAanKlikUitCover.stop_cover`: consults only the direction flags
(never the live-thread registry); picks the opposite hub signal of the
active direction and spawns a STOP worker, or returns if neither flag is
set. It does not change entity state and does not call
`schedule_update_ha_state`. -/
def KlikAanKlikUitCover.stop_cover (c : KlikAanKlikUitCover) :
    CoverDispatchResult :=
  if c.is_opening then
    { entity := c
      spawned := some
        { action := .STOP
          device_id := c.id
          kwargs_action := "stop"
          hub_function := some HubFn.turn_off }
      refreshed := false }
  else if c.is_closing then
    { entity := c
      spawned := some
        { action := .STOP
          device_id := c.id
          kwargs_action := "stop"
          hub_function := some HubFn.turn_on }
      refreshed := false }
  else
    { entity := c, spawned := none, refreshed := false }

/-- Result of a cover worker run: final entity, hub invocations made,
whether an exception was raised and caught by the `except` block, and
whether the `finally` block called `schedule_update_ha_state`. -/
structure CoverWorkerResult where
  entity : KlikAanKlikUitCover
  hub_calls : List HubFn
  caught : Bool
  refreshed : Bool
deriving DecidableEq, Repr

/-- `KlikAanKlikUitCover._execute_cover_action`: one hub invocation chosen
by the `action` string (the configured `tries` and `sleep` are never
consulted here), wrapped in try/except/finally. `hub_raises` models the
single hub invocation raising: the invocation still happens, the
exception is caught and logged by `except`, and the `finally` block runs
unconditionally, so the result does not depend on `hub_raises`. -/
def KlikAanKlikUitCover.execute_cover_action (c : KlikAanKlikUitCover)
    (action : String) (hub_function : Option HubFn) (hub_raises : Bool) :
    CoverWorkerResult :=
  let hub_calls : List HubFn :=
    if action == "open" then [HubFn.turn_on]
    else if action == "close" then [HubFn.turn_off]
    else if action == "stop" then
      match hub_function with
      | some f => [f]
      | none => []
    else []
  let entity : KlikAanKlikUitCover :=
    { c with
      is_opening := false
      is_closing := false
      is_closed :=
        if action == "stop" then none
        else if action == "open" then some false
        else if action == "close" then some true
        else c.is_closed }
  { entity := entity
    hub_calls := hub_calls
    caught := hub_raises && !hub_calls.isEmpty
    refreshed := true }

/-- `setup_platform` of cover.py, given the constructed hub: if the hub is
not connected, return without calling `add_entities` (so nothing is
registered); otherwise register one cover per enumerated device whose
stringified id is in the `cover_devices` allow-list. -/
def cover_setup_platform (hub : Hub) (cover_device_ids : List String)
    (tries sleepT : Nat) : List KlikAanKlikUitCover :=
  if !hub.connected then []
  else
    (hub.devices.filter (fun d => cover_device_ids.contains (toString d.id))).map
      (fun d => KlikAanKlikUitCover.init d tries sleepT)

/-! ## switch.py -/

/-- `KlikAanKlikUitAwningAction` enum from switch.py. -/
inductive KlikAanKlikUitAwningAction
  | UP
  | DOWN
deriving DecidableEq, Repr

/-- The `.value` of each enum member. -/
def KlikAanKlikUitAwningAction.value : KlikAanKlikUitAwningAction → String
  | .UP => "up"
  | .DOWN => "down"

/-- Thread name `f'awning{action.value}{device_id}'` used by
`KlikAanKlikUitAwningThread.__init__`. -/
def awningThreadName (action : KlikAanKlikUitAwningAction) (device_id : Nat) :
    String :=
  "awning" ++ action.value ++ toString device_id

/-- `KlikAanKlikUitAwningThread.has_running_threads`: scans live thread
names for the two awning thread names of `device_id`. -/
def KlikAanKlikUitAwningThread.has_running_threads
    (threads : List String) (device_id : Nat) : Bool :=
  let running_threads := threads.filter (fun n =>
    n == awningThreadName .UP device_id ||
    n == awningThreadName .DOWN device_id)
  !running_threads.isEmpty

/-- Entity state of `KlikAanKlikUitAwningSwitch`: configuration, direction,
identity, and the mutable `_is_on` flag. -/
structure KlikAanKlikUitAwningSwitch where
  tries : Nat
  sleep : Nat
  direction : String
  name : String
  id : Nat
  is_on : Bool
deriving DecidableEq, Repr

/-- `KlikAanKlikUitAwningSwitch.__init__`. -/
def KlikAanKlikUitAwningSwitch.init (device : Device) (tries sleepT : Nat)
    (direction : String) : KlikAanKlikUitAwningSwitch :=
  { tries := tries
    sleep := sleepT
    direction := direction
    name := device.name ++ " " ++ direction.capitalize
    id := device.id
    is_on := false }

/-- The arguments `turn_on` passes to `KlikAanKlikUitAwningThread`. -/
structure SpawnedAwningThread where
  action : KlikAanKlikUitAwningAction
  device_id : Nat
  hub_function : HubFn
deriving DecidableEq, Repr

/-- Result of a switch dispatcher call (`turn_on` / `turn_off`). -/
structure AwningDispatchResult where
  entity : KlikAanKlikUitAwningSwitch
  spawned : Option SpawnedAwningThread
  refreshed : Bool
deriving DecidableEq, Repr

/-- `KlikAanKlikUitAwningSwitch.turn_on`: rejected if any awning thread for
this device is live; otherwise pick the hub function from the entity's
direction and spawn the worker. `turn_on` itself neither mutates `_is_on`
nor calls `schedule_update_ha_state` (the worker does both). -/
def KlikAanKlikUitAwningSwitch.turn_on (sw : KlikAanKlikUitAwningSwitch)
    (threads : List String) : AwningDispatchResult :=
  if KlikAanKlikUitAwningThread.has_running_threads threads sw.id then
    { entity := sw, spawned := none, refreshed := false }
  else if sw.direction == "up" then
    { entity := sw
      spawned := some
        { action := .UP, device_id := sw.id, hub_function := HubFn.turn_on }
      refreshed := false }
  else
    { entity := sw
      spawned := some
        { action := .DOWN, device_id := sw.id, hub_function := HubFn.turn_off }
      refreshed := false }

/-- `KlikAanKlikUitAwningSwitch.turn_off`: unconditionally set `_is_on`
to false and call `schedule_update_ha_state`; no guard, no thread, no hub
command. -/
def KlikAanKlikUitAwningSwitch.turn_off (sw : KlikAanKlikUitAwningSwitch) :
    AwningDispatchResult :=
  { entity := { sw with is_on := false }, spawned := none, refreshed := true }

/-- The `for i in range(0, tries)` loop of the module-level `repeat`
function, from iteration `i` with `remaining` iterations left.  Each
iteration invokes the hub function and then does
`time.sleep(sleep if i != tries - 1 else 0)`.  `failAt = some k` models
the hub invocation of iteration `k` raising: the invocation is recorded,
the sleep is skipped, the loop is abandoned and the second component is
`true` (an exception propagates out of `repeat`). -/
def repeatFrom (f : HubFn) (tries sleepT : Nat) (failAt : Option Nat) :
    Nat → Nat → List WorkerEv × Bool
  | _, 0 => ([], false)
  | i, r + 1 =>
    if failAt == some i then
      ([WorkerEv.hub_call f], true)
    else
      let rest := repeatFrom f tries sleepT failAt (i + 1) r
      (WorkerEv.hub_call f ::
        WorkerEv.sleep_for (if i != tries - 1 then (sleepT : ℚ) else 0) ::
        rest.1,
       rest.2)

/-- The module-level `repeat(tries, sleep, callable_function, **kwargs)`
of switch.py: run the loop from iteration 0. -/
def repeatRun (f : HubFn) (tries sleepT : Nat) (failAt : Option Nat) :
    List WorkerEv × Bool :=
  repeatFrom f tries sleepT failAt 0 tries

/-- Result of `_execute_movement`: the entity state set inside the `try`
block before the loop (`_is_on = True` plus a refresh), the final entity
after `finally`, the event trace, whether an exception was caught, and
the number of `schedule_update_ha_state` calls. -/
structure AwningWorkerResult where
  during : KlikAanKlikUitAwningSwitch
  entity : KlikAanKlikUitAwningSwitch
  events : List WorkerEv
  caught : Bool
  refreshes : Nat
deriving DecidableEq, Repr

/-- `KlikAanKlikUitAwningSwitch._execute_movement`: set `_is_on = True`
and refresh, run `repeat`, then `time.sleep(0.5)`; any exception from the
loop is caught (skipping the 0.5s hold); the `finally` block always sets
`_is_on = False` and refreshes. -/
def KlikAanKlikUitAwningSwitch.execute_movement
    (sw : KlikAanKlikUitAwningSwitch) (hub_function : HubFn)
    (failAt : Option Nat) : AwningWorkerResult :=
  let during := { sw with is_on := true }
  let r := repeatRun hub_function sw.tries sw.sleep failAt
  { during := during
    entity := { during with is_on := false }
    events := r.1 ++ (if r.2 then [] else [WorkerEv.sleep_for (1 / 2 : ℚ)])
    caught := r.2
    refreshes := 2 }

/-- `setup_platform` of switch.py, given the constructed hub: if the hub
is not connected, return without calling `add_entities`; otherwise
register, per enumerated device whose stringified id is in the
`awning_devices` allow-list, two momentary switches (directions "up" and
"down"). -/
def switch_setup_platform (hub : Hub) (awning_device_ids : List String)
    (tries sleepT : Nat) : List KlikAanKlikUitAwningSwitch :=
  if !hub.connected then []
  else
    hub.devices.flatMap (fun d =>
      if awning_device_ids.contains (toString d.id) then
        [KlikAanKlikUitAwningSwitch.init d tries sleepT "up",
         KlikAanKlikUitAwningSwitch.init d tries sleepT "down"]
      else [])

/-! ## Helper lemmas -/

lemma optNat_none_beq_some (a : Nat) : ((none : Option Nat) == some a) = false :=
  rfl

lemma repeatFrom_zero (f : HubFn) (tries s : Nat) (failAt : Option Nat)
    (i : Nat) : repeatFrom f tries s failAt i 0 = ([], false) :=
  rfl

lemma repeatFrom_succ (f : HubFn) (tries s : Nat) (failAt : Option Nat)
    (i r : Nat) :
    repeatFrom f tries s failAt i (r + 1) =
      if failAt == some i then ([WorkerEv.hub_call f], true)
      else
        (WorkerEv.hub_call f ::
          WorkerEv.sleep_for (if i != tries - 1 then (s : ℚ) else 0) ::
          (repeatFrom f tries s failAt (i + 1) r).1,
         (repeatFrom f tries s failAt (i + 1) r).2) :=
  rfl

/-- A completed (non-failing) run of the `repeat` loop: `tries` hub
invocations, a sleep of `sleep` units after each invocation but the last,
and a sleep of 0 units (no suspension) after the last. -/
lemma repeatFrom_none_eq (f : HubFn) (tries s : Nat) :
    ∀ r i, i + (r + 1) = tries →
      repeatFrom f tries s none i (r + 1) =
        ((List.replicate r
            [WorkerEv.hub_call f, WorkerEv.sleep_for (s : ℚ)]).flatten
          ++ [WorkerEv.hub_call f, WorkerEv.sleep_for 0], false) := by
  intro r
  induction r with
  | zero =>
    intro i hi
    have h1 : i = tries - 1 := by omega
    rw [repeatFrom_succ]
    simp [optNat_none_beq_some, repeatFrom_zero, h1]
  | succ r ih =>
    intro i hi
    have h1 : (i != tries - 1) = true := by
      have h : i ≠ tries - 1 := by omega
      simpa using h
    have h2 := ih (i + 1) (by omega)
    rw [repeatFrom_succ, h2]
    simp [optNat_none_beq_some, h1, List.replicate_succ]

/-- The number of hub invocations of a non-failing `repeat` loop run
equals the number of remaining iterations. -/
lemma repeatFrom_none_countP (f : HubFn) (tries s : Nat) :
    ∀ r i, ((repeatFrom f tries s none i r).1.countP WorkerEv.isCall) = r := by
  intro r
  induction r with
  | zero => intro i; simp [repeatFrom_zero]
  | succ r ih =>
    intro i
    rw [repeatFrom_succ]
    simp [optNat_none_beq_some, List.countP_cons, ih, WorkerEv.isCall]

/-- Registered cover entities with a given device id: their number is the
number of matching enumerated devices when the id is allow-listed, and 0
otherwise. -/
lemma countP_cover_entities (ids : List String) (t s did : Nat)
    (devices : List Device) :
    (((devices.filter (fun x => ids.contains (toString x.id))).map
        (fun x => KlikAanKlikUitCover.init x t s)).countP
      (fun e => e.id == did)) =
      if toString did ∈ ids then
        devices.countP (fun x => x.id == did)
      else 0 := by
  rw [List.countP_map, List.countP_filter]
  by_cases hc : toString did ∈ ids
  · rw [if_pos hc]
    apply List.countP_congr
    intro a _
    by_cases h : a.id = did
    · subst h
      simp [Function.comp, KlikAanKlikUitCover.init, hc]
    · have hf : (a.id == did) = false := by simpa using h
      simp [Function.comp, KlikAanKlikUitCover.init, hf]
  · rw [if_neg hc]
    rw [List.countP_eq_zero]
    intro a _
    by_cases h : a.id = did
    · subst h
      simp [Function.comp, KlikAanKlikUitCover.init, hc]
    · have hf : (a.id == did) = false := by simpa using h
      simp [Function.comp, KlikAanKlikUitCover.init, hf]

/-- Registered awning switch entities with a given device id: two per
matching enumerated device when the id is allow-listed, 0 otherwise. -/
lemma countP_switch_entities (aids : List String) (t s did : Nat)
    (devices : List Device) :
    ((devices.flatMap (fun d =>
        if aids.contains (toString d.id) then
          [KlikAanKlikUitAwningSwitch.init d t s "up",
           KlikAanKlikUitAwningSwitch.init d t s "down"]
        else [])).countP (fun e => e.id == did)) =
      if toString did ∈ aids then
        2 * devices.countP (fun x => x.id == did)
      else 0 := by
  induction devices with
  | nil => simp
  | cons x xs ih =>
    rw [List.flatMap_cons, List.countP_append, ih]
    have hpair : (List.countP (fun e => e.id == did)
        (if aids.contains (toString x.id) then
          [KlikAanKlikUitAwningSwitch.init x t s "up",
           KlikAanKlikUitAwningSwitch.init x t s "down"]
        else [])) = if x.id = did ∧ toString did ∈ aids then 2 else 0 := by
      by_cases h : x.id = did
      · subst h
        by_cases hm : toString x.id ∈ aids
        · simp [hm, List.countP_cons, KlikAanKlikUitAwningSwitch.init]
        · simp [hm]
      · have hf : (x.id == did) = false := by simpa using h
        by_cases hm : toString x.id ∈ aids
        · simp [hm, List.countP_cons, KlikAanKlikUitAwningSwitch.init, hf, h]
        · simp [hm, h]
    rw [hpair, List.countP_cons]
    by_cases h : x.id = did
    all_goals by_cases hm : toString did ∈ aids
    all_goals simp [h, hm]
    all_goals omega

/-! ## Claim theorems -/

/-- Claim C1, counterexample: the claim says every new request for a
device with a live worker — including a Stop request — is rejected.  But
after `open_cover` is accepted (spawning the OPEN worker, whose thread
name is then among the live threads), a `stop_cover` call launches a
second, STOP worker for the same device: `stop_cover` never consults the
live-thread registry. -/
theorem stop_dispatch_during_live_worker :
    ((KlikAanKlikUitCover.init ⟨5, "zonnescherm"⟩ 1 3).open_cover []).spawned =
        some ⟨.OPEN, 5, "open", none⟩ ∧
    KlikAanKlikUitCoverThread.has_running_threads
        [coverThreadName .OPEN 5] 5 = true ∧
    ((((KlikAanKlikUitCover.init ⟨5, "zonnescherm"⟩ 1 3).open_cover
        []).entity.stop_cover).spawned =
      some ⟨.STOP, 5, "stop", some HubFn.turn_off⟩) := by
  decide

/-- Claim C1 as amended: while any worker for a device is live,
`open_cover`, `close_cover` and the switch `turn_on` are rejected and
launch no worker; `stop_cover`, however, performs no live-thread check:
whenever a direction flag is set it launches a STOP worker regardless of
which threads are running. -/
theorem dispatch_guard_per_device (threads : List String)
    (c : KlikAanKlikUitCover) (sw : KlikAanKlikUitAwningSwitch)
    (hc : KlikAanKlikUitCoverThread.has_running_threads threads c.id = true)
    (hs : KlikAanKlikUitAwningThread.has_running_threads threads sw.id = true) :
    (c.open_cover threads).spawned = none ∧
    (c.close_cover threads).spawned = none ∧
    (sw.turn_on threads).spawned = none ∧
    (c.is_opening = true →
      (c.stop_cover).spawned = some ⟨.STOP, c.id, "stop", some HubFn.turn_off⟩) ∧
    (c.is_opening = false → c.is_closing = true →
      (c.stop_cover).spawned = some ⟨.STOP, c.id, "stop", some HubFn.turn_on⟩) := by
  refine ⟨?_, ?_, ?_, ?_, ?_⟩
  · simp [KlikAanKlikUitCover.open_cover, hc]
  · simp [KlikAanKlikUitCover.close_cover, hc]
  · simp [KlikAanKlikUitAwningSwitch.turn_on, hs]
  · intro h
    simp [KlikAanKlikUitCover.stop_cover, h]
  · intro h1 h2
    simp [KlikAanKlikUitCover.stop_cover, h1, h2]

/-- Witness for the amended C1 at a concrete device with live workers. -/
theorem dispatch_guard_per_device_witness :
    KlikAanKlikUitCoverThread.has_running_threads
        ["coveropen5", "awningup5"] 5 = true ∧
    KlikAanKlikUitAwningThread.has_running_threads
        ["coveropen5", "awningup5"] 5 = true ∧
    (((KlikAanKlikUitCover.mk 1 3 "z" 5 none true false).open_cover
        ["coveropen5", "awningup5"]).spawned = none ∧
     ((KlikAanKlikUitCover.mk 1 3 "z" 5 none true false).close_cover
        ["coveropen5", "awningup5"]).spawned = none ∧
     ((KlikAanKlikUitAwningSwitch.mk 1 3 "up" "z Up" 5 false).turn_on
        ["coveropen5", "awningup5"]).spawned = none ∧
     ((KlikAanKlikUitCover.mk 1 3 "z" 5 none true false).is_opening = true →
       ((KlikAanKlikUitCover.mk 1 3 "z" 5 none true false).stop_cover).spawned =
         some ⟨.STOP, 5, "stop", some HubFn.turn_off⟩) ∧
     ((KlikAanKlikUitCover.mk 1 3 "z" 5 none true false).is_opening = false →
       (KlikAanKlikUitCover.mk 1 3 "z" 5 none true false).is_closing = true →
       ((KlikAanKlikUitCover.mk 1 3 "z" 5 none true false).stop_cover).spawned =
         some ⟨.STOP, 5, "stop", some HubFn.turn_on⟩)) :=
  ⟨by decide, by decide,
    dispatch_guard_per_device ["coveropen5", "awningup5"]
      (KlikAanKlikUitCover.mk 1 3 "z" 5 none true false)
      (KlikAanKlikUitAwningSwitch.mk 1 3 "up" "z Up" 5 false)
      (by decide) (by decide)⟩

/-- Claim C2, counterexample: a cover configured with `tries = 2`: its
OPEN worker invokes the hub exactly once, not `tries` times — the cover
worker has no repeat loop at all. -/
theorem cover_worker_ignores_tries :
    (KlikAanKlikUitCover.mk 2 1 "z" 5 none false false).tries = 2 ∧
    ¬ (((KlikAanKlikUitCover.mk 2 1 "z" 5 none false false).execute_cover_action
          "open" none false).hub_calls.length =
        (KlikAanKlikUitCover.mk 2 1 "z" 5 none false false).tries) := by
  decide

/-- Claim C2 as amended: the switch-side `repeat` loop invokes the hub
exactly `tries` times, sleeping `sleep` units after every invocation but
the last and 0 units (no suspension) after the last, and the switch
worker performs exactly `tries` hub invocations; the cover worker instead
invokes the hub exactly once per open/close action, ignoring the
configured `tries` and `sleep`. -/
theorem repeat_schedule (f : HubFn) (tries sleepT : Nat) (h : 1 ≤ tries)
    (sw : KlikAanKlikUitAwningSwitch) (c : KlikAanKlikUitCover)
    (hf : Option HubFn) (b : Bool) :
    (repeatRun f tries sleepT none).1 =
      (List.replicate (tries - 1)
          [WorkerEv.hub_call f, WorkerEv.sleep_for (sleepT : ℚ)]).flatten
        ++ [WorkerEv.hub_call f, WorkerEv.sleep_for 0] ∧
    ((sw.execute_movement f none).events.countP WorkerEv.isCall) = sw.tries ∧
    (c.execute_cover_action "open" hf b).hub_calls = [HubFn.turn_on] ∧
    (c.execute_cover_action "close" hf b).hub_calls = [HubFn.turn_off] := by
  refine ⟨?_, ?_, rfl, rfl⟩
  · obtain ⟨r, rfl⟩ : ∃ r, tries = r + 1 := ⟨tries - 1, by omega⟩
    have h2 := congrArg Prod.fst (repeatFrom_none_eq f (r + 1) sleepT r 0 (by omega))
    simpa [repeatRun] using h2
  · have hcount := repeatFrom_none_countP f sw.tries sw.sleep sw.tries 0
    have hnof : (repeatRun f sw.tries sw.sleep none).2 = false := by
      rcases Nat.eq_zero_or_pos sw.tries with h0 | h0
      · simp [repeatRun, h0, repeatFrom_zero]
      · obtain ⟨r, hr⟩ : ∃ r, sw.tries = r + 1 := ⟨sw.tries - 1, by omega⟩
        rw [repeatRun, hr, repeatFrom_none_eq f (r + 1) sw.sleep r 0 (by omega)]
    simp [KlikAanKlikUitAwningSwitch.execute_movement, hnof,
      List.countP_append, repeatRun] at hcount ⊢
    simp [hcount, WorkerEv.isCall]

/-- Witness for the amended C2 at `tries = 2`, `sleep = 1`. -/
theorem repeat_schedule_witness :
    1 ≤ 2 ∧
    ((repeatRun HubFn.turn_on 2 1 none).1 =
      (List.replicate (2 - 1)
          [WorkerEv.hub_call HubFn.turn_on, WorkerEv.sleep_for ((1 : Nat) : ℚ)]).flatten
        ++ [WorkerEv.hub_call HubFn.turn_on, WorkerEv.sleep_for 0] ∧
     (((KlikAanKlikUitAwningSwitch.mk 2 1 "up" "z Up" 5 false).execute_movement
          HubFn.turn_on none).events.countP WorkerEv.isCall) =
        (KlikAanKlikUitAwningSwitch.mk 2 1 "up" "z Up" 5 false).tries ∧
     ((KlikAanKlikUitCover.mk 2 1 "z" 5 none false false).execute_cover_action
        "open" none false).hub_calls = [HubFn.turn_on] ∧
     ((KlikAanKlikUitCover.mk 2 1 "z" 5 none false false).execute_cover_action
        "close" none false).hub_calls = [HubFn.turn_off]) :=
  ⟨by decide,
    repeat_schedule HubFn.turn_on 2 1 (by decide)
      (KlikAanKlikUitAwningSwitch.mk 2 1 "up" "z Up" 5 false)
      (KlikAanKlikUitCover.mk 2 1 "z" 5 none false false) none false⟩

/-- Claim C3: an `open_cover`, `close_cover` or switch `turn_on` call made
while a worker for the same device is running is a pure no-op apart from
logging: the entity is unchanged (so all state flags keep their values),
no worker is launched, and no UI refresh is requested. -/
theorem rejected_request_is_noop (threads : List String)
    (c : KlikAanKlikUitCover) (sw : KlikAanKlikUitAwningSwitch)
    (hc : KlikAanKlikUitCoverThread.has_running_threads threads c.id = true)
    (hs : KlikAanKlikUitAwningThread.has_running_threads threads sw.id = true) :
    c.open_cover threads = ⟨c, none, false⟩ ∧
    c.close_cover threads = ⟨c, none, false⟩ ∧
    sw.turn_on threads = ⟨sw, none, false⟩ := by
  refine ⟨?_, ?_, ?_⟩
  · simp [KlikAanKlikUitCover.open_cover, hc]
  · simp [KlikAanKlikUitCover.close_cover, hc]
  · simp [KlikAanKlikUitAwningSwitch.turn_on, hs]

/-- Witness for C3 at a concrete device with live workers. -/
theorem rejected_request_is_noop_witness :
    KlikAanKlikUitCoverThread.has_running_threads
        ["coverclose7", "awningdown7"] 7 = true ∧
    KlikAanKlikUitAwningThread.has_running_threads
        ["coverclose7", "awningdown7"] 7 = true ∧
    ((KlikAanKlikUitCover.mk 1 3 "c" 7 (some true) false true).open_cover
        ["coverclose7", "awningdown7"] =
      ⟨KlikAanKlikUitCover.mk 1 3 "c" 7 (some true) false true, none, false⟩ ∧
     (KlikAanKlikUitCover.mk 1 3 "c" 7 (some true) false true).close_cover
        ["coverclose7", "awningdown7"] =
      ⟨KlikAanKlikUitCover.mk 1 3 "c" 7 (some true) false true, none, false⟩ ∧
     (KlikAanKlikUitAwningSwitch.mk 1 3 "down" "c Down" 7 true).turn_on
        ["coverclose7", "awningdown7"] =
      ⟨KlikAanKlikUitAwningSwitch.mk 1 3 "down" "c Down" 7 true, none, false⟩) :=
  ⟨by decide, by decide,
    rejected_request_is_noop ["coverclose7", "awningdown7"]
      (KlikAanKlikUitCover.mk 1 3 "c" 7 (some true) false true)
      (KlikAanKlikUitAwningSwitch.mk 1 3 "down" "c Down" 7 true)
      (by decide) (by decide)⟩

/-- Claim C4: the final entity state of a completed worker run depends
only on which action ran — Open leaves `is_closed = some false`, Close
`is_closed = some true`, Stop `is_closed = none` (unknown); in every case
both transient flags end false, and a completed switch worker leaves
`is_on = false` — regardless of the prior state and of failure. -/
theorem worker_finalization_states (c : KlikAanKlikUitCover)
    (hf : Option HubFn) (b : Bool) (sw : KlikAanKlikUitAwningSwitch)
    (f : HubFn) (failAt : Option Nat) :
    ((c.execute_cover_action "open" hf b).entity.is_closed = some false ∧
     (c.execute_cover_action "open" hf b).entity.is_opening = false ∧
     (c.execute_cover_action "open" hf b).entity.is_closing = false) ∧
    ((c.execute_cover_action "close" hf b).entity.is_closed = some true ∧
     (c.execute_cover_action "close" hf b).entity.is_opening = false ∧
     (c.execute_cover_action "close" hf b).entity.is_closing = false) ∧
    ((c.execute_cover_action "stop" hf b).entity.is_closed = none ∧
     (c.execute_cover_action "stop" hf b).entity.is_opening = false ∧
     (c.execute_cover_action "stop" hf b).entity.is_closing = false) ∧
    (sw.execute_movement f failAt).entity.is_on = false :=
  ⟨⟨rfl, rfl, rfl⟩, ⟨rfl, rfl, rfl⟩, ⟨rfl, rfl, rfl⟩, rfl⟩

/-- Claim C5: a hub-command failure inside a worker is caught there and
the finalization still runs exactly as on success: the cover worker's
final entity, hub invocations and refresh request are identical with and
without the failure, and the switch worker's final entity (in particular
`is_on = false`) and its two refresh requests are identical with a
failure at any loop index and without one. -/
theorem failure_caught_still_finalizes (c : KlikAanKlikUitCover)
    (a : String) (hf : Option HubFn) (sw : KlikAanKlikUitAwningSwitch)
    (f : HubFn) (k : Nat) :
    ((c.execute_cover_action a hf true).entity =
        (c.execute_cover_action a hf false).entity ∧
     (c.execute_cover_action a hf true).hub_calls =
        (c.execute_cover_action a hf false).hub_calls ∧
     (c.execute_cover_action a hf true).refreshed = true ∧
     (c.execute_cover_action a hf false).refreshed = true) ∧
    ((sw.execute_movement f (some k)).entity =
        (sw.execute_movement f none).entity ∧
     (sw.execute_movement f (some k)).refreshes =
        (sw.execute_movement f none).refreshes ∧
     (sw.execute_movement f (some k)).entity.is_on = false ∧
     (sw.execute_movement f (some k)).refreshes = 2) :=
  ⟨⟨rfl, rfl, rfl, rfl⟩, ⟨rfl, rfl, rfl, rfl⟩⟩

/-- Claim C6: a Stop request issued while the cover is moving spawns a
worker carrying the opposite hub signal of the active direction (off when
opening, on when closing), and that worker performs exactly that one hub
invocation. -/
theorem stop_sends_single_opposite (c : KlikAanKlikUitCover) (b : Bool)
    (h : c.is_opening = true ∨ (c.is_opening = false ∧ c.is_closing = true)) :
    (c.stop_cover).spawned =
      some ⟨.STOP, c.id, "stop",
        some (if c.is_opening then HubFn.turn_off else HubFn.turn_on)⟩ ∧
    (c.execute_cover_action "stop"
        (some (if c.is_opening then HubFn.turn_off else HubFn.turn_on))
        b).hub_calls =
      [if c.is_opening then HubFn.turn_off else HubFn.turn_on] := by
  rcases h with h | ⟨h1, h2⟩
  · simp [KlikAanKlikUitCover.stop_cover,
      KlikAanKlikUitCover.execute_cover_action, h]
  · simp [KlikAanKlikUitCover.stop_cover,
      KlikAanKlikUitCover.execute_cover_action, h1, h2]

/-- Witness for C6 at a concrete cover that is opening. -/
theorem stop_sends_single_opposite_witness :
    ((KlikAanKlikUitCover.mk 1 3 "z" 5 none true false).is_opening = true ∨
      ((KlikAanKlikUitCover.mk 1 3 "z" 5 none true false).is_opening = false ∧
       (KlikAanKlikUitCover.mk 1 3 "z" 5 none true false).is_closing = true)) ∧
    (((KlikAanKlikUitCover.mk 1 3 "z" 5 none true false).stop_cover).spawned =
      some ⟨.STOP, 5, "stop",
        some (if (KlikAanKlikUitCover.mk 1 3 "z" 5 none true false).is_opening
          then HubFn.turn_off else HubFn.turn_on)⟩ ∧
     ((KlikAanKlikUitCover.mk 1 3 "z" 5 none true false).execute_cover_action
        "stop"
        (some (if (KlikAanKlikUitCover.mk 1 3 "z" 5 none true false).is_opening
          then HubFn.turn_off else HubFn.turn_on)) false).hub_calls =
      [if (KlikAanKlikUitCover.mk 1 3 "z" 5 none true false).is_opening
        then HubFn.turn_off else HubFn.turn_on]) :=
  ⟨Or.inl rfl,
    stop_sends_single_opposite (KlikAanKlikUitCover.mk 1 3 "z" 5 none true false)
      false (Or.inl rfl)⟩

/-- Claim C7: when the hub reports not connected, platform setup
registers zero entities, for both the cover and the switch platform (the
embedded setup functions are total, so no exception escapes). -/
theorem setup_unconnected_registers_nothing (hub : Hub)
    (ids aids : List String) (t s : Nat) (h : hub.connected = false) :
    cover_setup_platform hub ids t s = [] ∧
    switch_setup_platform hub aids t s = [] := by
  constructor
  · simp [cover_setup_platform, h]
  · simp [switch_setup_platform, h]

/-- Witness for C7: a disconnected hub that does enumerate a device. -/
theorem setup_unconnected_registers_nothing_witness :
    (Hub.mk false [⟨1, "lamp"⟩]).connected = false ∧
    (cover_setup_platform (Hub.mk false [⟨1, "lamp"⟩]) ["1"] 1 3 = [] ∧
     switch_setup_platform (Hub.mk false [⟨1, "lamp"⟩]) ["1"] 1 3 = []) :=
  ⟨rfl,
    setup_unconnected_registers_nothing (Hub.mk false [⟨1, "lamp"⟩])
      ["1"] ["1"] 1 3 rfl⟩

/-- Claim C8: with a connected hub, an enumerated device (occurring once
in the enumeration) yields a registered cover entity iff its stringified
id is in the cover allow-list — and then exactly one — and yields exactly
two registered awning switches, one per direction, iff its id is in the
awning allow-list. -/
theorem setup_allowlist_registration (hub : Hub) (ids aids : List String)
    (t s : Nat) (d : Device) (hconn : hub.connected = true)
    (hd : d ∈ hub.devices)
    (hcount : hub.devices.countP (fun x => x.id == d.id) = 1) :
    (KlikAanKlikUitCover.init d t s ∈ cover_setup_platform hub ids t s ↔
        toString d.id ∈ ids) ∧
    ((cover_setup_platform hub ids t s).countP (fun e => e.id == d.id) =
        if toString d.id ∈ ids then 1 else 0) ∧
    ((KlikAanKlikUitAwningSwitch.init d t s "up" ∈
          switch_setup_platform hub aids t s ∧
      KlikAanKlikUitAwningSwitch.init d t s "down" ∈
          switch_setup_platform hub aids t s) ↔
        toString d.id ∈ aids) ∧
    ((switch_setup_platform hub aids t s).countP (fun e => e.id == d.id) =
        if toString d.id ∈ aids then 2 else 0) := by
  have hcov : cover_setup_platform hub ids t s =
      (hub.devices.filter (fun x => ids.contains (toString x.id))).map
        (fun x => KlikAanKlikUitCover.init x t s) := by
    simp [cover_setup_platform, hconn]
  have hsw : switch_setup_platform hub aids t s =
      hub.devices.flatMap (fun x =>
        if aids.contains (toString x.id) then
          [KlikAanKlikUitAwningSwitch.init x t s "up",
           KlikAanKlikUitAwningSwitch.init x t s "down"]
        else []) := by
    simp [switch_setup_platform, hconn]
  refine ⟨?_, ?_, ?_, ?_⟩
  · rw [hcov]
    constructor
    · intro hmem
      rw [List.mem_map] at hmem
      obtain ⟨x, hxmem, hxe⟩ := hmem
      rw [List.mem_filter] at hxmem
      have hid : x.id = d.id := congrArg KlikAanKlikUitCover.id hxe
      have hcont := hxmem.2
      rw [hid] at hcont
      exact List.elem_iff.mp hcont
    · intro hmem
      rw [List.mem_map]
      refine ⟨d, ?_, rfl⟩
      rw [List.mem_filter]
      exact ⟨hd, List.elem_iff.mpr hmem⟩
  · rw [hcov, countP_cover_entities, hcount]
  · rw [hsw]
    constructor
    · rintro ⟨hup, h_down⟩
      rw [List.mem_flatMap] at hup
      obtain ⟨x, hxmem, hxe⟩ := hup
      by_cases hcx : aids.contains (toString x.id) = true
      · rw [if_pos hcx] at hxe
        have hid : d.id = x.id := by
          rcases List.mem_cons.mp hxe with h | h
          · exact congrArg KlikAanKlikUitAwningSwitch.id h
          · exact congrArg KlikAanKlikUitAwningSwitch.id
              (List.mem_singleton.mp h)
        rw [← hid] at hcx
        exact List.elem_iff.mp hcx
      · rw [if_neg hcx] at hxe
        simp at hxe
    · intro hmem
      have hcd : aids.contains (toString d.id) = true := List.elem_iff.mpr hmem
      constructor
      · rw [List.mem_flatMap]
        exact ⟨d, hd, by rw [if_pos hcd]; exact List.mem_cons_self _ _⟩
      · rw [List.mem_flatMap]
        refine ⟨d, hd, ?_⟩
        rw [if_pos hcd]
        exact List.mem_cons.mpr (Or.inr (List.mem_singleton.mpr rfl))
  · rw [hsw, countP_switch_entities, hcount]

/-- Witness for C8: a connected hub enumerating devices 5 and 6, with
device 5 allow-listed as a cover and 6 as an awning. -/
theorem setup_allowlist_registration_witness :
    (Hub.mk true [⟨5, "z"⟩, ⟨6, "w"⟩]).connected = true ∧
    (⟨5, "z"⟩ : Device) ∈ (Hub.mk true [⟨5, "z"⟩, ⟨6, "w"⟩]).devices ∧
    (Hub.mk true [⟨5, "z"⟩, ⟨6, "w"⟩]).devices.countP
        (fun x => x.id == (⟨5, "z"⟩ : Device).id) = 1 ∧
    ((KlikAanKlikUitCover.init ⟨5, "z"⟩ 1 3 ∈
          cover_setup_platform (Hub.mk true [⟨5, "z"⟩, ⟨6, "w"⟩]) ["5"] 1 3 ↔
        toString (⟨5, "z"⟩ : Device).id ∈ ["5"]) ∧
     ((cover_setup_platform (Hub.mk true [⟨5, "z"⟩, ⟨6, "w"⟩]) ["5"] 1 3).countP
          (fun e => e.id == (⟨5, "z"⟩ : Device).id) =
        if toString (⟨5, "z"⟩ : Device).id ∈ ["5"] then 1 else 0) ∧
     ((KlikAanKlikUitAwningSwitch.init ⟨5, "z"⟩ 1 3 "up" ∈
          switch_setup_platform (Hub.mk true [⟨5, "z"⟩, ⟨6, "w"⟩]) ["6"] 1 3 ∧
       KlikAanKlikUitAwningSwitch.init ⟨5, "z"⟩ 1 3 "down" ∈
          switch_setup_platform (Hub.mk true [⟨5, "z"⟩, ⟨6, "w"⟩]) ["6"] 1 3) ↔
        toString (⟨5, "z"⟩ : Device).id ∈ ["6"]) ∧
     ((switch_setup_platform (Hub.mk true [⟨5, "z"⟩, ⟨6, "w"⟩]) ["6"] 1 3).countP
          (fun e => e.id == (⟨5, "z"⟩ : Device).id) =
        if toString (⟨5, "z"⟩ : Device).id ∈ ["6"] then 2 else 0)) :=
  ⟨rfl, by decide, by decide,
    setup_allowlist_registration (Hub.mk true [⟨5, "z"⟩, ⟨6, "w"⟩])
      ["5"] ["6"] 1 3 ⟨5, "z"⟩ rfl (by decide) (by decide)⟩

/-- Claim C9: a `stop_cover` call while neither direction flag is set
returns immediately: no worker is spawned (hence no hub command), the
entity — including `is_closed` — is unchanged, and no refresh is
requested. -/
theorem stop_cover_idle_noop (c : KlikAanKlikUitCover)
    (h1 : c.is_opening = false) (h2 : c.is_closing = false) :
    c.stop_cover = ⟨c, none, false⟩ := by
  simp [KlikAanKlikUitCover.stop_cover, h1, h2]

/-- Witness for C9 at a concrete idle cover that is known-closed. -/
theorem stop_cover_idle_noop_witness :
    (KlikAanKlikUitCover.mk 1 3 "z" 5 (some true) false false).is_opening =
        false ∧
    (KlikAanKlikUitCover.mk 1 3 "z" 5 (some true) false false).is_closing =
        false ∧
    (KlikAanKlikUitCover.mk 1 3 "z" 5 (some true) false false).stop_cover =
      ⟨KlikAanKlikUitCover.mk 1 3 "z" 5 (some true) false false, none, false⟩ :=
  ⟨rfl, rfl,
    stop_cover_idle_noop
      (KlikAanKlikUitCover.mk 1 3 "z" 5 (some true) false false) rfl rfl⟩

/-- Claim C10: the awning switch's `turn_off` — which takes no notice of
any running worker — sets `is_on` to false leaving every other field
unchanged, requests a UI refresh, and spawns no worker (so it sends no
hub command). -/
theorem turn_off_momentary_reset (sw : KlikAanKlikUitAwningSwitch) :
    (sw.turn_off).entity = { sw with is_on := false } ∧
    (sw.turn_off).refreshed = true ∧
    (sw.turn_off).spawned = none :=
  ⟨rfl, rfl, rfl⟩

end ICS2000
